import Mathlib

/-!
Shallow embedding of the PLATO-NEO "metaluminous" engine core
(src/metaluminous): the data model (models/schema.py), the consensus
policy (core/consensus.py), the local critic panel (core/tribunal.py),
the cloud council (api/four_sages.py), the generator variation fan-out
(core/generation.py) and the refinement/exploration orchestration
(core/engine.py).

Scores that are Python floats are embedded as rationals; external
LLM/network calls are abstracted as explicit outcome parameters
(`Except String _` for a call that may raise).  `asyncio.gather` is
modelled by `asyncGather` (default `return_exceptions=False`) and
`asyncGatherExc` (`return_exceptions=True`).
-/

namespace Metaluminous

/-- models/schema.py: `PhilosophicalDomain` enum. -/
inductive PhilosophicalDomain where
  | metaphysics | epistemology | ethics | consciousness | logic
  | aesthetics | political | phenomenology | quantum
deriving DecidableEq, Repr

/-- models/schema.py: `ModelRole` enum. -/
inductive ModelRole where
  | generator | critic | creative | refiner | validator
deriving DecidableEq, Repr

/-- models/schema.py: `PhilosophicalPosition` (timestamps and free-form
metadata omitted; float scores embedded as rationals). -/
structure PhilosophicalPosition where
  id : Option String := none
  problem : String
  position : String
  domains : List PhilosophicalDomain
  assumptions : List String := []
  testable_predictions : List String := []
  contradictions : List String := []
  novelty_score : Option ℚ := none
  coherence_score : Option ℚ := none
deriving DecidableEq, Repr

/-- models/schema.py: `Critique` (timestamp omitted). -/
structure Critique where
  position_id : String
  model : String
  role : ModelRole
  logical_consistency : ℚ
  identified_flaws : List String := []
  contradictions_found : List String := []
  suggestions : List String := []
  novelty_assessment : Option ℚ := none
deriving DecidableEq, Repr

/-- models/schema.py: `ConsensusResult` (timestamp omitted). -/
structure ConsensusResult where
  position_id : String
  unanimous_validity : Bool
  average_novelty : ℚ
  testable_predictions_count : ℕ
  coherence_agreement : ℕ
  decision : String
  reasons : List String := []
  participating_models : List String := []
deriving DecidableEq, Repr

/-- models/schema.py: `GenerationRequest` (temperature as a rational). -/
structure GenerationRequest where
  problem : String
  domains : List PhilosophicalDomain := []
  constraints : List String := []
  existing_solutions : List String := []
  innovation_vectors : List String := []
  temperature : ℚ := 7/10
deriving DecidableEq, Repr

/-- models/schema.py: `DebateSession` (timestamps omitted). -/
structure DebateSession where
  id : String
  position : PhilosophicalPosition
  critiques : List Critique := []
  iterations : ℕ := 0
  max_iterations : ℕ := 10
  converged : Bool := false
  final_consensus : Option ConsensusResult := none
deriving DecidableEq, Repr

/-- config.py: the threshold fields of `Settings` used by the core. -/
structure Settings where
  max_iterations : ℕ := 10
  novelty_threshold : ℚ := 7/10
  min_testable_predictions : ℕ := 2
deriving DecidableEq, Repr

/-- config.py: the module-level `settings` object with default values. -/
def settings : Settings := {}

/-- models/schema.py: pydantic construction of a `Critique`.
`logical_consistency` carries `Field(ge=0.0, le=1.0)` and
`novelty_assessment` carries `Field(None, ge=0.0, le=1.0)`, so pydantic
raises a ValidationError at construction when either bound is violated,
and stores the value unchanged otherwise. -/
def Critique.construct (position_id model : String) (role : ModelRole)
    (logical_consistency : ℚ) (identified_flaws contradictions_found suggestions : List String)
    (novelty_assessment : Option ℚ) : Except String Critique :=
  if logical_consistency < 0 ∨ 1 < logical_consistency then
    Except.error "ValidationError: logical_consistency outside [0, 1]"
  else
    match novelty_assessment with
    | some nv =>
        if nv < 0 ∨ 1 < nv then
          Except.error "ValidationError: novelty_assessment outside [0, 1]"
        else
          Except.ok { position_id, model, role, logical_consistency,
                      identified_flaws, contradictions_found, suggestions,
                      novelty_assessment }
    | none =>
        Except.ok { position_id, model, role, logical_consistency,
                    identified_flaws, contradictions_found, suggestions,
                    novelty_assessment }

/-- Rendering of a number in the style of Python `f"{x:.2f}"`, used only
inside human-readable reason strings. -/
def fmt2 (q : ℚ) : String :=
  let n : ℤ := round (q * 100)
  toString (n / 100) ++ "." ++ (if (n % 100).natAbs < 10 then "0" else "") ++
    toString (n % 100).natAbs

/-- core/consensus.py: `ConsensusBuilder._check_unanimous_validity`. -/
def check_unanimous_validity (critiques : List Critique) : Bool :=
  if critiques = [] then
    false
  else
    critiques.all fun c => decide ((7 : ℚ)/10 ≤ c.logical_consistency)

/-- core/consensus.py: `ConsensusBuilder._calculate_average_novelty`. -/
def calculate_average_novelty (critiques : List Critique) : ℚ :=
  let novelty_scores := critiques.filterMap fun c => c.novelty_assessment
  if novelty_scores = [] then
    1/2
  else
    novelty_scores.sum / novelty_scores.length

/-- core/consensus.py: `ConsensusBuilder._count_coherence_agreement`. -/
def count_coherence_agreement (critiques : List Critique) : ℕ :=
  critiques.countP fun c => decide ((7 : ℚ)/10 ≤ c.logical_consistency)

/-- core/consensus.py: accumulation of `critical_flaws` inside
`_make_decision` (the for-loop that extends with each critique's
`contradictions_found` when it is non-empty). -/
def collect_critical_flaws (critiques : List Critique) : List String :=
  critiques.foldl
    (fun acc c => if c.contradictions_found ≠ [] then acc ++ c.contradictions_found else acc)
    []

/-- core/consensus.py: `ConsensusBuilder._make_decision`. -/
def make_decision (st : Settings) (unanimous_validity : Bool) (average_novelty : ℚ)
    (testable_count : ℕ) (coherence_agreement : ℕ) (critiques : List Critique) :
    String × List String :=
  if !unanimous_validity then
    ("REJECT", ["Logical flaw detected by one or more models"])
  else
    let reasons := ["All models agree on logical validity"]
    if average_novelty < st.novelty_threshold then
      ("REJECT", reasons ++
        ["Insufficient novelty: " ++ fmt2 average_novelty ++ " < " ++ toString st.novelty_threshold])
    else
      let reasons := reasons ++ ["Novelty score: " ++ fmt2 average_novelty]
      if testable_count < st.min_testable_predictions then
        ("REJECT", reasons ++
          ["Insufficient testable predictions: " ++ toString testable_count ++ " < " ++
            toString st.min_testable_predictions])
      else
        let reasons := reasons ++ [toString testable_count ++ " testable predictions provided"]
        let required_agreement := max 3 (critiques.length * 3 / 4)
        if coherence_agreement < required_agreement then
          ("REVISE", reasons ++
            ["Insufficient coherence agreement: " ++ toString coherence_agreement ++ "/" ++
              toString critiques.length ++ " models"])
        else
          let reasons := reasons ++
            ["Coherence agreement: " ++ toString coherence_agreement ++ "/" ++
              toString critiques.length ++ " models"]
          let critical_flaws := collect_critical_flaws critiques
          if critical_flaws ≠ [] then
            ("REVISE", reasons ++
              ["Critical contradictions found: " ++ toString critical_flaws.length])
          else
            ("ACCEPT", reasons ++ ["All criteria met for acceptance"])

/-- core/consensus.py: `ConsensusBuilder.build_consensus` (the Python
`list(set(...))` for `participating_models` is modelled by `dedup`;
its element order is not relied upon anywhere). -/
def build_consensus (st : Settings) (position : PhilosophicalPosition)
    (critiques : List Critique) : ConsensusResult :=
  let unanimous_validity := check_unanimous_validity critiques
  let average_novelty := calculate_average_novelty critiques
  let testable_count := position.testable_predictions.length
  let coherence_agreement := count_coherence_agreement critiques
  let dr := make_decision st unanimous_validity average_novelty testable_count
    coherence_agreement critiques
  { position_id := position.id.getD "unknown"
    unanimous_validity := unanimous_validity
    average_novelty := average_novelty
    testable_predictions_count := testable_count
    coherence_agreement := coherence_agreement
    decision := dr.1
    reasons := dr.2
    participating_models := (critiques.map fun c => c.model).dedup }

/-- Model of `asyncio.gather(*tasks)` with the default
`return_exceptions=False`: each task's outcome is given as an
`Except`; if every task succeeds the results are returned in argument
order, otherwise the first raised exception propagates to the awaiting
caller and no result list is produced. -/
def asyncGather : List (Except ε α) → Except ε (List α)
  | [] => Except.ok []
  | Except.error e :: _ => Except.error e
  | Except.ok a :: rs =>
      match asyncGather rs with
      | Except.error e => Except.error e
      | Except.ok as => Except.ok (a :: as)

/-- Model of `asyncio.gather(*tasks, return_exceptions=True)`: every
task's outcome (value or exception) is returned in argument order. -/
def asyncGatherExc (results : List (Except ε α)) : List (Except ε α) :=
  results

/-- core/tribunal.py: `PhilosophicalTribunal.run_tribunal`.  The four
evaluator coroutines (`_check_logic`, `_find_contradictions`,
`_assess_novelty`, `_generate_edge_cases`) each end in a backend call
that may raise, so their outcomes are passed in as `Except` values; the
panel awaits `asyncio.gather` over them with default options. -/
def run_tribunal (check_logic find_contradictions assess_novelty generate_edge_cases :
    Except String Critique) : Except String (List Critique) :=
  asyncGather [check_logic, find_contradictions, assess_novelty, generate_edge_cases]

/-- api/four_sages.py: `FourSageCouncil.refine_position`.  The four sage
coroutines' outcomes are gathered with `return_exceptions=True`, then a
loop appends each non-exception result to `valid_critiques`. -/
def refine_position (claude_analysis gpt4_verification gemini_connections gpt4o_synthesis :
    Except String Critique) : List Critique :=
  let sage_critiques := asyncGatherExc
    [claude_analysis, gpt4_verification, gemini_connections, gpt4o_synthesis]
  sage_critiques.foldl
    (fun valid_critiques r =>
      match r with
      | Except.error _ => valid_critiques
      | Except.ok c => valid_critiques ++ [c])
    []

/-- core/engine.py: the cloud-refinement phase of `process_problem` and
`_iterate_position`: `refine_position` is awaited inside try/except;
on success its critiques extend the session's critiques, on any
exception the error is logged and the session's critiques are kept. -/
def cloud_refinement_phase (cloud_call : Except String (List Critique))
    (session_critiques : List Critique) : List Critique :=
  match cloud_call with
  | Except.ok cloud_critiques => session_critiques ++ cloud_critiques
  | Except.error _ => session_critiques

/-- core/generation.py: the request built inside `generate_variations`
for index `i`: `base_request.model_copy()` with
`temperature = 0.5 + (i / num_variations) * 1.0`. -/
def variation_request (base_request : GenerationRequest) (num_variations i : ℕ) :
    GenerationRequest :=
  { base_request with temperature := 1/2 + ((i : ℚ) / (num_variations : ℚ)) * 1 }

/-- core/generation.py: `GenerationEngine.generate_variations`.  The
generator backend is abstracted as `gen`; the n varied requests are
issued concurrently through `asyncio.gather` with default options. -/
def generate_variations (gen : GenerationRequest → Except String PhilosophicalPosition)
    (base_request : GenerationRequest) (num_variations : ℕ) :
    Except String (List PhilosophicalPosition) :=
  let tasks := (List.range num_variations).map fun i =>
    gen (variation_request base_request num_variations i)
  asyncGather tasks

/-- core/engine.py: `MetaluminousEngine._iterate_position`, projected
onto its iteration bookkeeping.  External generation and critiquing are
abstracted into `consensus_decision`, giving the decision of the
consensus rebuilt at each iteration counter value.  Each call increments
`session.iterations` by one, builds the refined request with
`temperature = original_request.temperature * 0.9` (the original
request is passed down the recursion unchanged), and recurses while the
new decision is REVISE and the budget remains.  Returned: the final
iteration counter and the temperatures of the generator invocations,
in order. -/
def iterate_position (original_temperature : ℚ) (consensus_decision : ℕ → String)
    (iterations max_iterations : ℕ) : ℕ × List ℚ :=
  let it := iterations + 1
  let refined_temperature := original_temperature * (9/10)
  if h : consensus_decision it = "REVISE" ∧ it < max_iterations then
    let rest := iterate_position original_temperature consensus_decision it max_iterations
    (rest.1, refined_temperature :: rest.2)
  else
    (it, [refined_temperature])
termination_by max_iterations - iterations
decreasing_by omega

/-- core/engine.py: the per-variant inputs of `explore_problem_space`:
one generated position, the session id drawn for it, and the local
tribunal critiques it received. -/
structure VariantInput where
  session_id : String
  position : PhilosophicalPosition
  local_critiques : List Critique
deriving DecidableEq, Repr

/-- core/engine.py: the session built for one variant inside
`explore_problem_space` (position id assigned, tribunal critiques
attached, consensus built, marked converged, no iteration). -/
def explore_session (st : Settings) (v : VariantInput) : DebateSession :=
  let position := { v.position with id := some (v.session_id ++ "-pos-0") }
  { id := v.session_id
    position := position
    critiques := v.local_critiques
    final_consensus := some (build_consensus st position v.local_critiques)
    converged := true }

/-- core/engine.py: the sort key of `explore_problem_space`:
`(s.final_consensus.unanimous_validity, s.final_consensus.average_novelty)`.
In the source every session reaching the sort carries a consensus; an
absent consensus is mapped to the bottom key. -/
def consensus_sort_key (s : DebateSession) : Bool × ℚ :=
  match s.final_consensus with
  | some c => (c.unanimous_validity, c.average_novelty)
  | none => (false, 0)

/-- Python tuple comparison on a `(bool, float)` key: lexicographic,
with `False < True`. -/
def key_le (p q : Bool × ℚ) : Prop :=
  (p.1 = false ∧ q.1 = true) ∨ (p.1 = q.1 ∧ p.2 ≤ q.2)

instance (p q : Bool × ℚ) : Decidable (key_le p q) := by
  unfold key_le; infer_instance

/-- The comparator realizing `sort(key=..., reverse=True)`: `a` may
come before `b` when `b`'s key is at most `a`'s key. -/
def session_desc_le (a b : DebateSession) : Bool :=
  decide (key_le (consensus_sort_key b) (consensus_sort_key a))

/-- core/engine.py: `sessions.sort(key=..., reverse=True)` — Python's
stable sort in descending key order, modelled by the stable
`List.mergeSort` with the flipped comparator. -/
def explore_rank (sessions : List DebateSession) : List DebateSession :=
  sessions.mergeSort session_desc_le

/-- core/engine.py: `MetaluminousEngine.explore_problem_space`:
build one converged session per variant in generation order, then sort
by consensus quality. -/
def explore_problem_space (st : Settings) (variants : List VariantInput) :
    List DebateSession :=
  explore_rank (variants.map (explore_session st))

/-! ### Helper lemmas about the gather model -/

theorem asyncGather_all_ok {ε α : Type} (rs : List (Except ε α))
    (h : ∀ r ∈ rs, r.isOk) :
    asyncGather rs = Except.ok (rs.filterMap Except.toOption) := by
  induction rs with
  | nil => rfl
  | cons r rs ih =>
    match r with
    | Except.error e =>
      have hr := h _ (List.mem_cons_self _ _)
      simp [Except.isOk, Except.toBool] at hr
    | Except.ok a =>
      simp only [asyncGather, List.filterMap_cons]
      rw [ih fun x hx => h x (List.mem_cons_of_mem _ hx)]
      rfl

theorem asyncGather_isOk_iff {ε α : Type} (rs : List (Except ε α)) :
    (asyncGather rs).isOk = true ↔ ∀ r ∈ rs, r.isOk = true := by
  induction rs with
  | nil => simp [asyncGather, Except.isOk, Except.toBool]
  | cons r rs ih =>
    match r with
    | Except.error e => simp [asyncGather, Except.isOk, Except.toBool]
    | Except.ok a =>
      cases hg : asyncGather rs with
      | error e =>
        rw [hg] at ih
        simp only [asyncGather, hg]
        constructor
        · intro h
          simp [Except.isOk, Except.toBool] at h
        · intro hall
          have hk := ih.mpr fun r hr => hall r (List.mem_cons_of_mem _ hr)
          simp [Except.isOk, Except.toBool] at hk
      | ok as =>
        rw [hg] at ih
        simp only [asyncGather, hg]
        constructor
        · intro _ r hr
          rcases List.mem_cons.mp hr with h | h
          · subst h; rfl
          · exact ih.mp rfl r h
        · intro _; rfl

theorem asyncGather_ok_length {ε α : Type} (rs : List (Except ε α)) (as : List α)
    (h : asyncGather rs = Except.ok as) : as.length = rs.length := by
  induction rs generalizing as with
  | nil =>
    simp only [asyncGather] at h
    cases h
    rfl
  | cons r rs ih =>
    match r with
    | Except.error e => simp [asyncGather] at h
    | Except.ok a =>
      cases hg : asyncGather rs with
      | error e => simp [asyncGather, hg] at h
      | ok bs =>
        simp only [asyncGather, hg] at h
        cases h
        simp [ih bs hg]

theorem asyncGather_first_error {ε α : Type} (rs : List (Except ε α)) :
    ∀ (j : ℕ) (hj : j < rs.length) (e : ε),
      rs.get ⟨j, hj⟩ = Except.error e →
      (∀ (i : ℕ) (hi : i < rs.length), i < j → (rs.get ⟨i, hi⟩).isOk) →
      asyncGather rs = Except.error e := by
  induction rs with
  | nil => intro j hj; simp at hj
  | cons r rs ih =>
    intro j hj e hget hpre
    match j with
    | 0 =>
      have hr : r = Except.error e := hget
      rw [hr]
      rfl
    | Nat.succ j =>
      have hr : r.isOk := hpre 0 (by simp) (Nat.succ_pos j)
      match r with
      | Except.error e' => simp [Except.isOk, Except.toBool] at hr
      | Except.ok a =>
        have hrec := ih j (by simpa using hj) e (by simpa using hget)
          (fun i hi hij => by
            have := hpre (i + 1) (by simpa using Nat.succ_lt_succ hi)
              (Nat.succ_lt_succ hij)
            simpa using this)
        simp [asyncGather, hrec]

/-! ### Substring occurrence in reason strings -/

/-- `mentions s pat` holds when `pat` occurs as a contiguous substring
of `s` (used to state that a reason string mentions a word). -/
def mentions (s pat : String) : Prop :=
  pat.toList <:+: s.toList

instance (s pat : String) : Decidable (mentions s pat) :=
  inferInstanceAs (Decidable (pat.toList <:+: s.toList))

theorem mentions_append_left {s pat : String} (t : String) (h : mentions s pat) :
    mentions (s ++ t) pat := by
  obtain ⟨u, v, huv⟩ := h
  refine ⟨u, v ++ t.toList, ?_⟩
  have hst : (s ++ t).toList = s.toList ++ t.toList := rfl
  rw [hst, ← huv]
  simp

/-! ### Sample values used in concrete witnesses and counterexamples -/

def sample_logic_critique : Critique :=
  { position_id := "pos-1", model := "llama3", role := ModelRole.critic,
    logical_consistency := 9/10 }

def sample_contra_critique : Critique :=
  { position_id := "pos-1", model := "mistral", role := ModelRole.critic,
    logical_consistency := 1 }

def sample_novelty_critique : Critique :=
  { position_id := "pos-1", model := "llama3", role := ModelRole.validator,
    logical_consistency := 4/5, novelty_assessment := some (3/5) }

def sample_edge_critique : Critique :=
  { position_id := "pos-1", model := "gemma", role := ModelRole.creative,
    logical_consistency := 4/5 }

/-! ### C1: failure isolation in the local tribunal -/

/-- Claim C1, counterexample: in `run_tribunal` one failing evaluator
makes the whole panel call fail — with the second evaluator raising, the
result is an error, not the list of the three critiques that
succeeded. -/
theorem run_tribunal_counterexample :
    (run_tribunal (Except.ok sample_logic_critique)
        (Except.error "Ollama connection refused")
        (Except.ok sample_novelty_critique)
        (Except.ok sample_edge_critique)).isOk = false ∧
    run_tribunal (Except.ok sample_logic_critique)
        (Except.error "Ollama connection refused")
        (Except.ok sample_novelty_critique)
        (Except.ok sample_edge_critique) ≠
      Except.ok [sample_logic_critique, sample_novelty_critique, sample_edge_critique] := by
  constructor
  · rfl
  · intro h
    simp [run_tribunal, asyncGather] at h

/-- Claim C1, amended: `run_tribunal` awaits a plain `asyncio.gather`,
so the panel returns all four critiques in order when every evaluator
succeeds, and the panel call itself fails (the exception propagates to
the caller, the successful siblings' critiques are discarded) as soon
as any evaluator raises. -/
theorem run_tribunal_gather_semantics (r1 r2 r3 r4 : Except String Critique) :
    (∀ c1 c2 c3 c4 : Critique, r1 = Except.ok c1 → r2 = Except.ok c2 →
      r3 = Except.ok c3 → r4 = Except.ok c4 →
      run_tribunal r1 r2 r3 r4 = Except.ok [c1, c2, c3, c4]) ∧
    ((run_tribunal r1 r2 r3 r4).isOk = true ↔
      (r1.isOk ∧ r2.isOk ∧ r3.isOk ∧ r4.isOk)) := by
  constructor
  · intro c1 c2 c3 c4 h1 h2 h3 h4
    subst h1; subst h2; subst h3; subst h4
    rfl
  · rw [run_tribunal, asyncGather_isOk_iff]
    simp

/-- Claim C1 witness: the amended theorem applied to a concrete
all-successful panel. -/
theorem run_tribunal_gather_semantics_witness :
    run_tribunal (Except.ok sample_logic_critique) (Except.ok sample_contra_critique)
        (Except.ok sample_novelty_critique) (Except.ok sample_edge_critique) =
      Except.ok [sample_logic_critique, sample_contra_critique,
        sample_novelty_critique, sample_edge_critique] :=
  (run_tribunal_gather_semantics _ _ _ _).1 _ _ _ _ rfl rfl rfl rfl

/-! ### C4: partial-success semantics of the cloud council -/

/-- Claim C4: `refine_position` gathers the four sages with
`return_exceptions=True` and returns exactly the critiques of the sages
that succeeded, in invocation order; four failures yield the empty list
rather than an error; and the engine's try/except around the council
call keeps the local critiques untouched when the call itself fails. -/
theorem refine_position_partial_success :
    (∀ r1 r2 r3 r4 : Except String Critique,
      refine_position r1 r2 r3 r4 = [r1, r2, r3, r4].filterMap Except.toOption) ∧
    (∀ e1 e2 e3 e4 : String,
      refine_position (Except.error e1) (Except.error e2) (Except.error e3)
        (Except.error e4) = []) ∧
    (∀ (e : String) (local_critiques : List Critique),
      cloud_refinement_phase (Except.error e) local_critiques = local_critiques) := by
  refine ⟨?_, ?_, ?_⟩
  · intro r1 r2 r3 r4
    cases r1 <;> cases r2 <;> cases r3 <;> cases r4 <;> rfl
  · intro e1 e2 e3 e4
    rfl
  · intro e local_critiques
    rfl

/-! ### C5: the all-or-nothing variation batch -/

/-- Claim C5: `generate_variations` issues `n` requests identical to
the base except that request `i` carries temperature
`0.5 + (i / n) * 1.0`; when every concurrent generation succeeds the
positions come back in index order (one per request, so `n` of them);
and the batch is all-or-nothing: the first failing generation's error
is the result and no partial list of positions is produced. -/
theorem generate_variations_spec
    (gen : GenerationRequest → Except String PhilosophicalPosition)
    (base_request : GenerationRequest) (n : ℕ) (_hn : 1 ≤ n) :
    (∀ i, i < n → variation_request base_request n i =
      { base_request with temperature := 1/2 + ((i : ℚ) / (n : ℚ)) * 1 }) ∧
    ((∀ i, i < n → (gen (variation_request base_request n i)).isOk) →
      generate_variations gen base_request n =
        Except.ok ((List.range n).filterMap fun i =>
          (gen (variation_request base_request n i)).toOption)) ∧
    (∀ ps, generate_variations gen base_request n = Except.ok ps → ps.length = n) ∧
    (∀ (j : ℕ) (e : String), j < n →
      gen (variation_request base_request n j) = Except.error e →
      (∀ i, i < j → (gen (variation_request base_request n i)).isOk) →
      generate_variations gen base_request n = Except.error e) := by
  refine ⟨fun i _ => rfl, ?_, ?_, ?_⟩
  · intro hall
    unfold generate_variations
    rw [asyncGather_all_ok]
    · rw [List.filterMap_map]
      rfl
    · intro r hr
      obtain ⟨i, hi, rfl⟩ := List.mem_map.mp hr
      exact hall i (List.mem_range.mp hi)
  · intro ps hps
    unfold generate_variations at hps
    have hl := asyncGather_ok_length _ _ hps
    simpa using hl
  · intro j e hj hje hpre
    unfold generate_variations
    have hlen : ((List.range n).map fun i =>
        gen (variation_request base_request n i)).length = n := by simp
    apply asyncGather_first_error _ j (by rw [hlen]; exact hj) e
    · rw [List.get_eq_getElem]
      simp only [List.getElem_map, List.getElem_range]
      exact hje
    · intro i hi hij
      rw [List.get_eq_getElem]
      simp only [List.getElem_map, List.getElem_range]
      exact hpre i hij

def sample_request : GenerationRequest :=
  { problem := "What grounds mathematical truth", domains := [PhilosophicalDomain.logic] }

def sample_position : PhilosophicalPosition :=
  { problem := "What grounds mathematical truth",
    position := "Mathematical truth is grounded in structural invariance",
    domains := [PhilosophicalDomain.logic],
    testable_predictions := ["Prediction one", "Prediction two"] }

/-- A generator backend that always succeeds. -/
def sample_gen_ok : GenerationRequest → Except String PhilosophicalPosition :=
  fun _ => Except.ok sample_position

/-- A generator backend that raises on the first variation request
(temperature 0.5) and succeeds elsewhere. -/
def sample_gen_fail : GenerationRequest → Except String PhilosophicalPosition :=
  fun r => if r.temperature = 1/2 then Except.error "Ollama timeout" else Except.ok sample_position

/-- Claim C5 witness: the spec theorem applied to a concrete base
request with `n = 2`, once with an all-successful backend and once with
a backend failing at index 0. -/
theorem generate_variations_spec_witness :
    generate_variations sample_gen_ok sample_request 2 =
      Except.ok ((List.range 2).filterMap fun i =>
        (sample_gen_ok (variation_request sample_request 2 i)).toOption) ∧
    generate_variations sample_gen_fail sample_request 2 = Except.error "Ollama timeout" := by
  constructor
  · exact (generate_variations_spec sample_gen_ok sample_request 2 (by decide)).2.1
      fun i _ => rfl
  · exact (generate_variations_spec sample_gen_fail sample_request 2 (by decide)).2.2.2 0
      "Ollama timeout" (by decide) (by norm_num [sample_gen_fail, variation_request])
      (fun i hi => absurd hi (by omega))

/-! ### Helper lemmas about the consensus policy -/

theorem check_unanimous_validity_eq_true {critiques : List Critique} :
    check_unanimous_validity critiques = true ↔
      critiques ≠ [] ∧ ∀ c ∈ critiques, (7 : ℚ)/10 ≤ c.logical_consistency := by
  unfold check_unanimous_validity
  split
  · rename_i h
    simp [h]
  · rename_i h
    simp [h, List.all_eq_true]

theorem check_unanimous_validity_eq_false {critiques : List Critique} :
    check_unanimous_validity critiques = false ↔
      critiques = [] ∨ ∃ c ∈ critiques, c.logical_consistency < (7 : ℚ)/10 := by
  rw [← Bool.not_eq_true, check_unanimous_validity_eq_true]
  constructor
  · intro h
    by_cases hc : critiques = []
    · exact Or.inl hc
    · right
      rcases not_and_or.mp h with h' | h'
      · exact absurd hc h'
      · obtain ⟨c, hm, hlt⟩ := not_forall₂.mp h'
        exact ⟨c, hm, lt_of_not_le hlt⟩
  · rintro (h | ⟨c, hm, hlt⟩)
    · exact fun hh => hh.1 h
    · exact fun hh => absurd (hh.2 c hm) (not_le.mpr hlt)

theorem collect_critical_flaws_aux (critiques : List Critique) :
    ∀ acc : List String,
      critiques.foldl
        (fun acc c => if c.contradictions_found ≠ [] then acc ++ c.contradictions_found else acc)
        acc = [] ↔
      (acc = [] ∧ ∀ c ∈ critiques, c.contradictions_found = []) := by
  induction critiques with
  | nil => intro acc; simp
  | cons c cs ih =>
    intro acc
    simp only [List.foldl_cons]
    by_cases hc : c.contradictions_found = []
    · rw [if_neg (by simp [hc]), ih acc]
      simp [hc]
    · rw [if_pos hc, ih (acc ++ c.contradictions_found)]
      simp [hc]

theorem collect_critical_flaws_eq_nil {critiques : List Critique} :
    collect_critical_flaws critiques = [] ↔
      ∀ c ∈ critiques, c.contradictions_found = [] := by
  unfold collect_critical_flaws
  rw [collect_critical_flaws_aux]
  simp

/-! ### C9: average novelty excludes absent assessments -/

/-- Claim C9: `average_novelty` is the arithmetic mean of exactly the
`novelty_assessment` values that are present (None is excluded from
both sum and count), it defaults to 0.5 when no critique carries an
assessment, and over assessments `[0.8, 0.6, None]` it equals 0.7. -/
theorem average_novelty_mean_of_present (critiques : List Critique) :
    ((∀ c ∈ critiques, c.novelty_assessment = none) →
      calculate_average_novelty critiques = 1/2) ∧
    ((critiques.filterMap fun c => c.novelty_assessment) ≠ [] →
      calculate_average_novelty critiques =
        (critiques.filterMap fun c => c.novelty_assessment).sum /
          ((critiques.filterMap fun c => c.novelty_assessment).length : ℚ)) ∧
    calculate_average_novelty
      [{ sample_logic_critique with novelty_assessment := some (4/5) },
       { sample_logic_critique with novelty_assessment := some (3/5) },
       { sample_logic_critique with novelty_assessment := none }] = 7/10 := by
  refine ⟨?_, ?_, by
    norm_num [calculate_average_novelty, sample_logic_critique, List.filterMap_cons]
    all_goals simp⟩
  · intro hnone
    unfold calculate_average_novelty
    rw [if_pos]
    rw [List.filterMap_eq_nil_iff]
    intro c hc
    simp [hnone c hc]
  · intro hne
    unfold calculate_average_novelty
    rw [if_neg hne]

/-- Claim C9 witness: the theorem applied to the concrete critique list
with assessments `[0.8, 0.6, None]` and to an assessment-free list. -/
theorem average_novelty_mean_of_present_witness :
    calculate_average_novelty
      [{ sample_logic_critique with novelty_assessment := some (4/5) },
       { sample_logic_critique with novelty_assessment := some (3/5) },
       { sample_logic_critique with novelty_assessment := none }] =
      ([(4 : ℚ)/5, 3/5].sum / ([(4 : ℚ)/5, 3/5].length : ℚ)) ∧
    calculate_average_novelty [sample_logic_critique, sample_edge_critique] = 1/2 := by
  constructor
  · have h := (average_novelty_mean_of_present
      [{ sample_logic_critique with novelty_assessment := some (4/5) },
       { sample_logic_critique with novelty_assessment := some (3/5) },
       { sample_logic_critique with novelty_assessment := none }]).2.1 (by decide)
    rw [h]
    norm_num [sample_logic_critique, List.filterMap_cons]
  · exact (average_novelty_mean_of_present
      [sample_logic_critique, sample_edge_critique]).1 (by decide)

/-! ### C7: validation bounds on Critique construction -/

/-- Claim C7: constructing a `Critique` fails validation when
`logical_consistency`, or a supplied `novelty_assessment`, lies outside
`[0, 1]`; within the inclusive bounds construction succeeds and stores
every field value unchanged (no clamping). -/
theorem critique_construct_validates (position_id model : String) (role : ModelRole)
    (lc : ℚ) (identified_flaws contradictions_found suggestions : List String)
    (novelty_assessment : Option ℚ) :
    (¬ (0 ≤ lc ∧ lc ≤ 1) →
      (Critique.construct position_id model role lc identified_flaws contradictions_found
        suggestions novelty_assessment).isOk = false) ∧
    (∀ nv, novelty_assessment = some nv → ¬ (0 ≤ nv ∧ nv ≤ 1) →
      (Critique.construct position_id model role lc identified_flaws contradictions_found
        suggestions novelty_assessment).isOk = false) ∧
    ((0 ≤ lc ∧ lc ≤ 1) → (∀ nv, novelty_assessment = some nv → 0 ≤ nv ∧ nv ≤ 1) →
      Critique.construct position_id model role lc identified_flaws contradictions_found
        suggestions novelty_assessment =
        Except.ok (Critique.mk position_id model role lc identified_flaws
          contradictions_found suggestions novelty_assessment)) := by
  refine ⟨?_, ?_, ?_⟩
  · intro hout
    unfold Critique.construct
    rw [if_pos]
    · rfl
    · rcases not_and_or.mp hout with h | h
      · exact Or.inl (lt_of_not_le h)
      · exact Or.inr (lt_of_not_le h)
  · intro nv hnv hout
    subst hnv
    unfold Critique.construct
    by_cases hl : lc < 0 ∨ 1 < lc
    · rw [if_pos hl]
      rfl
    · rw [if_neg hl]
      dsimp only
      rw [if_pos]
      · rfl
      · rcases not_and_or.mp hout with h | h
        · exact Or.inl (lt_of_not_le h)
        · exact Or.inr (lt_of_not_le h)
  · intro hlc hnv
    unfold Critique.construct
    rw [if_neg (by push_neg; exact hlc)]
    cases novelty_assessment with
    | none => rfl
    | some nv =>
      dsimp only
      rw [if_neg (by push_neg; exact hnv nv rfl)]

/-- Claim C7 witness: construction with `logical_consistency = 1.5`
fails, while `0.0` and `1.0` succeed with the value stored as given. -/
theorem critique_construct_validates_witness :
    (Critique.construct "pos-1" "llama3" ModelRole.critic (3/2) [] [] [] none).isOk = false ∧
    Critique.construct "pos-1" "llama3" ModelRole.critic 0 [] [] [] none =
      Except.ok (Critique.mk "pos-1" "llama3" ModelRole.critic 0 [] [] [] none) ∧
    Critique.construct "pos-1" "llama3" ModelRole.critic 1 [] [] [] none =
      Except.ok (Critique.mk "pos-1" "llama3" ModelRole.critic 1 [] [] [] none) := by
  refine ⟨?_, ?_, ?_⟩
  · exact (critique_construct_validates "pos-1" "llama3" ModelRole.critic (3/2)
      [] [] [] none).1 (by norm_num)
  · exact (critique_construct_validates "pos-1" "llama3" ModelRole.critic 0
      [] [] [] none).2.2 (by norm_num) (fun nv h => by cases h)
  · exact (critique_construct_validates "pos-1" "llama3" ModelRole.critic 1
      [] [] [] none).2.2 (by norm_num) (fun nv h => by cases h)

/-! ### Branch characterizations of the decision function -/

theorem make_decision_not_unanimous (st : Settings) (avg : ℚ) (tc ca : ℕ)
    (critiques : List Critique) :
    make_decision st false avg tc ca critiques =
      ("REJECT", ["Logical flaw detected by one or more models"]) := by
  unfold make_decision
  rw [if_pos (by simp)]

theorem make_decision_low_novelty (st : Settings) (avg : ℚ) (tc ca : ℕ)
    (critiques : List Critique) (h2 : avg < st.novelty_threshold) :
    make_decision st true avg tc ca critiques =
      ("REJECT",
        ["All models agree on logical validity",
          "Insufficient novelty: " ++ fmt2 avg ++ " < " ++ toString st.novelty_threshold]) := by
  unfold make_decision
  rw [if_neg (by simp), if_pos h2]
  rfl

theorem make_decision_few_predictions (st : Settings) (avg : ℚ) (tc ca : ℕ)
    (critiques : List Critique) (h2 : ¬ avg < st.novelty_threshold)
    (h3 : tc < st.min_testable_predictions) :
    make_decision st true avg tc ca critiques =
      ("REJECT",
        ["All models agree on logical validity", "Novelty score: " ++ fmt2 avg,
          "Insufficient testable predictions: " ++ toString tc ++ " < " ++
            toString st.min_testable_predictions]) := by
  unfold make_decision
  rw [if_neg (by simp), if_neg h2, if_pos h3]
  rfl

theorem make_decision_weak_coherence (st : Settings) (avg : ℚ) (tc ca : ℕ)
    (critiques : List Critique) (h2 : ¬ avg < st.novelty_threshold)
    (h3 : ¬ tc < st.min_testable_predictions)
    (h4 : ca < max 3 (critiques.length * 3 / 4)) :
    make_decision st true avg tc ca critiques =
      ("REVISE",
        ["All models agree on logical validity", "Novelty score: " ++ fmt2 avg,
          toString tc ++ " testable predictions provided",
          "Insufficient coherence agreement: " ++ toString ca ++ "/" ++
            toString critiques.length ++ " models"]) := by
  unfold make_decision
  rw [if_neg (by simp), if_neg h2, if_neg h3, if_pos h4]
  rfl

theorem make_decision_all_pass (st : Settings) (avg : ℚ) (tc ca : ℕ)
    (critiques : List Critique) (h2 : ¬ avg < st.novelty_threshold)
    (h3 : ¬ tc < st.min_testable_predictions)
    (h4 : ¬ ca < max 3 (critiques.length * 3 / 4)) :
    make_decision st true avg tc ca critiques =
      (if collect_critical_flaws critiques ≠ [] then
        ("REVISE",
          ["All models agree on logical validity", "Novelty score: " ++ fmt2 avg,
            toString tc ++ " testable predictions provided",
            "Coherence agreement: " ++ toString ca ++ "/" ++ toString critiques.length ++
              " models",
            "Critical contradictions found: " ++ toString (collect_critical_flaws critiques).length])
      else
        ("ACCEPT",
          ["All models agree on logical validity", "Novelty score: " ++ fmt2 avg,
            toString tc ++ " testable predictions provided",
            "Coherence agreement: " ++ toString ca ++ "/" ++ toString critiques.length ++
              " models",
            "All criteria met for acceptance"])) := by
  unfold make_decision
  rw [if_neg (by simp), if_neg h2, if_neg h3, if_neg h4]
  split <;> rename_i hcf
  · rw [if_pos hcf]
    rfl
  · rw [if_neg hcf]
    rfl

theorem build_consensus_decision (st : Settings) (position : PhilosophicalPosition)
    (critiques : List Critique) :
    (build_consensus st position critiques).decision =
      (make_decision st (check_unanimous_validity critiques)
        (calculate_average_novelty critiques) position.testable_predictions.length
        (count_coherence_agreement critiques) critiques).1 := by
  rfl

theorem build_consensus_reasons (st : Settings) (position : PhilosophicalPosition)
    (critiques : List Critique) :
    (build_consensus st position critiques).reasons =
      (make_decision st (check_unanimous_validity critiques)
        (calculate_average_novelty critiques) position.testable_predictions.length
        (count_coherence_agreement critiques) critiques).2 := by
  rfl

/-! ### C2: contradictions separate REVISE from ACCEPT -/

/-- Claim C2: when the critiques are non-empty, unanimously above the
0.7 logical-consistency bar, at or above the novelty threshold on
average, backed by enough testable predictions, and meeting the
required coherence agreement `max 3 (3n/4)`, the decision is REVISE
exactly when some critique carries a non-empty `contradictions_found`
(and then a reason mentions the contradictions); with no contradictions
the decision is ACCEPT. -/
theorem consensus_contradictions_drive_revise (st : Settings)
    (position : PhilosophicalPosition) (critiques : List Critique)
    (hne : critiques ≠ [])
    (hlc : ∀ c ∈ critiques, (7 : ℚ)/10 ≤ c.logical_consistency)
    (hnov : st.novelty_threshold ≤ calculate_average_novelty critiques)
    (hpred : st.min_testable_predictions ≤ position.testable_predictions.length)
    (hcoh : max 3 (critiques.length * 3 / 4) ≤ count_coherence_agreement critiques) :
    ((build_consensus st position critiques).decision = "REVISE" ↔
      ∃ c ∈ critiques, c.contradictions_found ≠ []) ∧
    ((∃ c ∈ critiques, c.contradictions_found ≠ []) →
      ∃ r ∈ (build_consensus st position critiques).reasons, mentions r "contradiction") ∧
    ((∀ c ∈ critiques, c.contradictions_found = []) →
      (build_consensus st position critiques).decision = "ACCEPT") := by
  have hu : check_unanimous_validity critiques = true :=
    check_unanimous_validity_eq_true.mpr ⟨hne, hlc⟩
  have hmd := make_decision_all_pass st (calculate_average_novelty critiques)
    position.testable_predictions.length (count_coherence_agreement critiques) critiques
    (not_lt.mpr hnov) (not_lt.mpr hpred) (not_lt.mpr hcoh)
  rw [build_consensus_decision, build_consensus_reasons, hu, hmd]
  by_cases hcf : collect_critical_flaws critiques = []
  · rw [if_neg (not_not_intro hcf)]
    refine ⟨?_, ?_, fun _ => rfl⟩
    · constructor
      · intro h
        simp at h
      · rintro ⟨c, hm, hcne⟩
        exact absurd (collect_critical_flaws_eq_nil.mp hcf c hm) hcne
    · rintro ⟨c, hm, hcne⟩
      exact absurd (collect_critical_flaws_eq_nil.mp hcf c hm) hcne
  · rw [if_pos hcf]
    refine ⟨⟨fun _ => ?_, fun _ => rfl⟩, fun _ => ?_, fun hall => ?_⟩
    · by_contra hall
      push_neg at hall
      exact hcf (collect_critical_flaws_eq_nil.mpr fun c hc => hall c hc)
    · refine ⟨"Critical contradictions found: " ++
        toString (collect_critical_flaws critiques).length, by simp, ?_⟩
      exact mentions_append_left _ (by decide)
    · exact absurd (collect_critical_flaws_eq_nil.mpr hall) hcf

/-- A critique as in the C2 scenario: logical consistency 0.9,
novelty assessment 0.8, no findings. -/
def c2_base (m : String) : Critique :=
  Critique.mk "pos-1" m ModelRole.critic (9/10) [] [] [] (some (4/5))

def c2_critiques_contra : List Critique :=
  [{ c2_base "m1" with contradictions_found := ["Premise two conflicts with premise one"] },
   c2_base "m2", c2_base "m3"]

def c2_critiques_clean : List Critique :=
  [c2_base "m1", c2_base "m2", c2_base "m3"]

/-- Claim C2 witness: the theorem applied to the concrete scenario of
the spec — 3 critiques with consistency 0.9 and novelty 0.8 on a
2-prediction position; one non-empty `contradictions_found` gives
REVISE with a contradiction-mentioning reason, none gives ACCEPT. -/
theorem consensus_contradictions_drive_revise_witness :
    (build_consensus settings sample_position c2_critiques_contra).decision = "REVISE" ∧
    (∃ r ∈ (build_consensus settings sample_position c2_critiques_contra).reasons,
      mentions r "contradiction") ∧
    (build_consensus settings sample_position c2_critiques_clean).decision = "ACCEPT" := by
  have havg1 : calculate_average_novelty c2_critiques_contra = 4/5 := by
    norm_num [calculate_average_novelty, c2_critiques_contra, c2_base, List.filterMap_cons]
    all_goals simp
  have havg2 : calculate_average_novelty c2_critiques_clean = 4/5 := by
    norm_num [calculate_average_novelty, c2_critiques_clean, c2_base, List.filterMap_cons]
    all_goals simp
  have hcnt1 : count_coherence_agreement c2_critiques_contra = 3 := by
    norm_num [count_coherence_agreement, c2_critiques_contra, c2_base, List.countP_cons]
  have hcnt2 : count_coherence_agreement c2_critiques_clean = 3 := by
    norm_num [count_coherence_agreement, c2_critiques_clean, c2_base, List.countP_cons]
  have h1 := consensus_contradictions_drive_revise settings sample_position c2_critiques_contra
    (by simp [c2_critiques_contra])
    (by norm_num [c2_critiques_contra, c2_base, List.forall_mem_cons])
    (by rw [havg1]; norm_num [settings])
    (by simp [settings, sample_position])
    (by rw [hcnt1]; simp [c2_critiques_contra])
  have h2 := consensus_contradictions_drive_revise settings sample_position c2_critiques_clean
    (by simp [c2_critiques_clean])
    (by norm_num [c2_critiques_clean, c2_base, List.forall_mem_cons])
    (by rw [havg2]; norm_num [settings])
    (by simp [settings, sample_position])
    (by rw [hcnt2]; simp [c2_critiques_clean])
  have hex : ∃ c ∈ c2_critiques_contra, c.contradictions_found ≠ [] := by
    refine ⟨{ c2_base "m1" with
      contradictions_found := ["Premise two conflicts with premise one"] }, by simp [c2_critiques_contra], by simp⟩
  exact ⟨h1.1.mpr hex, h1.2.1 hex,
    h2.2.2 (by norm_num [c2_critiques_clean, c2_base, List.forall_mem_cons])⟩

/-! ### C8: too few predictions always REJECT, reason only sometimes -/

def sample_position_no_preds : PhilosophicalPosition :=
  { problem := "t", position := "t", domains := [] }

def sample_position_one_pred : PhilosophicalPosition :=
  { problem := "t", position := "t", domains := [],
    testable_predictions := ["Only one prediction"] }

/-- Claim C8, counterexample: with no critiques and zero predictions
the decision is REJECT, but the unanimity check short-circuits first,
so no reason of the result mentions "prediction" — the claim's reason
part fails. -/
theorem consensus_prediction_reason_counterexample :
    sample_position_no_preds.testable_predictions.length <
      settings.min_testable_predictions ∧
    (build_consensus settings sample_position_no_preds []).decision = "REJECT" ∧
    ∀ r ∈ (build_consensus settings sample_position_no_preds []).reasons,
      ¬ mentions r "prediction" := by
  refine ⟨by decide, rfl, ?_⟩
  have hr : (build_consensus settings sample_position_no_preds []).reasons =
      ["Logical flaw detected by one or more models"] := rfl
  rw [hr]
  decide

/-- Claim C8, amended: a position with fewer than
`min_testable_predictions` predictions is always REJECTed, whatever the
critiques; and whenever the earlier checks pass (unanimous validity
holds and average novelty is not below the threshold) the REJECT
reasons include a string mentioning "prediction". -/
theorem consensus_insufficient_predictions_reject (st : Settings)
    (position : PhilosophicalPosition) (critiques : List Critique)
    (hpred : position.testable_predictions.length < st.min_testable_predictions) :
    (build_consensus st position critiques).decision = "REJECT" ∧
    (check_unanimous_validity critiques = true →
      ¬ calculate_average_novelty critiques < st.novelty_threshold →
      ∃ r ∈ (build_consensus st position critiques).reasons, mentions r "prediction") := by
  rw [build_consensus_decision, build_consensus_reasons]
  cases hu : check_unanimous_validity critiques with
  | false =>
    rw [make_decision_not_unanimous]
    exact ⟨rfl, fun h => absurd h (by decide)⟩
  | true =>
    by_cases hnov : calculate_average_novelty critiques < st.novelty_threshold
    · rw [make_decision_low_novelty _ _ _ _ _ hnov]
      exact ⟨rfl, fun _ h => absurd hnov h⟩
    · rw [make_decision_few_predictions _ _ _ _ _ hnov hpred]
      refine ⟨rfl, fun _ _ => ?_⟩
      refine ⟨"Insufficient testable predictions: " ++
        toString position.testable_predictions.length ++ " < " ++
        toString st.min_testable_predictions, by simp, ?_⟩
      exact mentions_append_left _ (mentions_append_left _ (mentions_append_left _ (by decide)))

/-- Claim C8 witness: the amended theorem applied to a one-prediction
position, once with empty critiques (hypothesis of the decision part)
and once with clean high-scoring critiques (both inner hypotheses
discharged, the "prediction" reason appears). -/
theorem consensus_insufficient_predictions_reject_witness :
    (build_consensus settings sample_position_one_pred c2_critiques_clean).decision =
      "REJECT" ∧
    ∃ r ∈ (build_consensus settings sample_position_one_pred c2_critiques_clean).reasons,
      mentions r "prediction" := by
  have havg : calculate_average_novelty c2_critiques_clean = 4/5 := by
    norm_num [calculate_average_novelty, c2_critiques_clean, c2_base, List.filterMap_cons]
    all_goals simp
  have h := consensus_insufficient_predictions_reject settings sample_position_one_pred
    c2_critiques_clean (by decide)
  refine ⟨h.1, h.2 ?_ ?_⟩
  · exact check_unanimous_validity_eq_true.mpr
      ⟨by simp [c2_critiques_clean], by norm_num [c2_critiques_clean, c2_base, List.forall_mem_cons]⟩
  · rw [havg]
    norm_num [settings]

/-! ### C10: ACCEPT needs at least three critiques -/

/-- Claim C10: with fewer than 3 critiques the decision is never
ACCEPT — an empty list or any critique below 0.7 logical consistency
gives REJECT, and otherwise the coherence agreement (at most 2) is
below the hard floor `max 3 (3n/4) = 3`, so the decision is at best
REVISE. -/
theorem consensus_accept_requires_three (st : Settings)
    (position : PhilosophicalPosition) (critiques : List Critique)
    (hlen : critiques.length < 3) :
    (build_consensus st position critiques).decision ≠ "ACCEPT" ∧
    ((critiques = [] ∨ ∃ c ∈ critiques, c.logical_consistency < (7 : ℚ)/10) →
      (build_consensus st position critiques).decision = "REJECT") := by
  rw [build_consensus_decision]
  cases hu : check_unanimous_validity critiques with
  | false =>
    rw [make_decision_not_unanimous]
    exact ⟨by decide, fun _ => rfl⟩
  | true =>
    have hcontra : ¬(critiques = [] ∨ ∃ c ∈ critiques, c.logical_consistency < (7 : ℚ)/10) := by
      intro h
      have := check_unanimous_validity_eq_false.mpr h
      rw [hu] at this
      cases this
    refine ⟨?_, fun h => absurd h hcontra⟩
    by_cases hnov : calculate_average_novelty critiques < st.novelty_threshold
    · rw [make_decision_low_novelty _ _ _ _ _ hnov]
      simp
    · by_cases hp : position.testable_predictions.length < st.min_testable_predictions
      · rw [make_decision_few_predictions _ _ _ _ _ hnov hp]
        simp
      · have hca : count_coherence_agreement critiques < max 3 (critiques.length * 3 / 4) := by
          have h1 : count_coherence_agreement critiques ≤ critiques.length :=
            List.countP_le_length _
          exact lt_of_lt_of_le (by omega) (le_max_left _ _)
        rw [make_decision_weak_coherence _ _ _ _ _ hnov hp hca]
        simp

/-- Claim C10 witness: with an empty critique list the decision is
REJECT (hence not ACCEPT). -/
theorem consensus_accept_requires_three_witness :
    (build_consensus settings sample_position []).decision ≠ "ACCEPT" ∧
    (build_consensus settings sample_position []).decision = "REJECT" := by
  have h := consensus_accept_requires_three settings sample_position [] (by decide)
  exact ⟨h.1, h.2 (Or.inl rfl)⟩

/-! ### C3: temperature across REVISE iterations -/

/-- A consensus oracle that asks for one revision and then accepts. -/
def revise_once_decision : ℕ → String :=
  fun n => if n = 1 then "REVISE" else "ACCEPT"

/-- Claim C3, counterexample: starting from temperature 1 with two
iterations (one REVISE, then ACCEPT), the generator is invoked with
temperature 0.9 on both iterations — the second invocation is not
0.9 * 0.9 as the claim's compounding predicts, because the code always
derives the refined temperature from the original request. -/
theorem iterate_position_counterexample :
    (iterate_position 1 revise_once_decision 0 10).1 = 2 ∧
    (iterate_position 1 revise_once_decision 0 10).2 = [9/10, 9/10] ∧
    ((9 : ℚ)/10) * (9/10) ≠ 9/10 := by
  have h2 : iterate_position 1 revise_once_decision 1 10 = (2, [1 * (9/10)]) := by
    rw [iterate_position]
    rw [dif_neg (by simp [revise_once_decision])]
  have h1 : iterate_position 1 revise_once_decision 0 10 =
      (2, (1 : ℚ) * (9/10) :: [1 * (9/10)]) := by
    rw [iterate_position]
    rw [dif_pos ⟨by simp [revise_once_decision], by norm_num⟩, h2]
  rw [h1]
  norm_num

/-- Claim C3, amended: every REVISE iteration invokes the generator
with temperature exactly `original_request.temperature * 0.9` — the
factor is applied to the original request's temperature each time, not
compounded across iterations — and the session's iteration counter
grows by exactly one per recursive call (so by the number of generator
invocations overall). -/
theorem iterate_position_temperature_spec (original_temperature : ℚ)
    (consensus_decision : ℕ → String) (iterations max_iterations : ℕ) :
    (∀ t ∈ (iterate_position original_temperature consensus_decision
        iterations max_iterations).2, t = original_temperature * (9/10)) ∧
    (iterate_position original_temperature consensus_decision iterations max_iterations).1 =
      iterations + (iterate_position original_temperature consensus_decision
        iterations max_iterations).2.length ∧
    1 ≤ (iterate_position original_temperature consensus_decision
      iterations max_iterations).2.length := by
  generalize hfuel : max_iterations - iterations = fuel
  induction fuel generalizing iterations with
  | zero =>
    rw [iterate_position, dif_neg (by omega)]
    simp
  | succ n ih =>
    rw [iterate_position]
    by_cases hc : consensus_decision (iterations + 1) = "REVISE" ∧
        iterations + 1 < max_iterations
    · rw [dif_pos hc]
      have hrec := ih (iterations + 1) (by omega)
      refine ⟨?_, ?_, by simp⟩
      · intro t ht
        rcases List.mem_cons.mp ht with h | h
        · exact h
        · exact hrec.1 t h
      · simp only [List.length_cons, hrec.2.1]
        omega
    · rw [dif_neg hc]
      simp

/-! ### C6: exploration ranking is a stable descending sort -/

theorem key_le_refl (p : Bool × ℚ) : key_le p p :=
  Or.inr ⟨rfl, le_refl _⟩

theorem key_le_total (p q : Bool × ℚ) : key_le p q ∨ key_le q p := by
  rcases p with ⟨pb, px⟩
  rcases q with ⟨qb, qx⟩
  cases pb <;> cases qb <;> simp [key_le] <;> exact le_total px qx

theorem key_le_trans {p q r : Bool × ℚ} (h1 : key_le p q) (h2 : key_le q r) :
    key_le p r := by
  rcases h1 with ⟨h1a, h1b⟩ | ⟨h1a, h1b⟩ <;> rcases h2 with ⟨h2a, h2b⟩ | ⟨h2a, h2b⟩
  · rw [h1b] at h2a
    exact absurd h2a (by decide)
  · exact Or.inl ⟨h1a, by rw [← h2a]; exact h1b⟩
  · exact Or.inl ⟨h1a.trans h2a, h2b⟩
  · exact Or.inr ⟨h1a.trans h2a, h1b.trans h2b⟩

theorem session_desc_le_trans (a b c : DebateSession) :
    session_desc_le a b → session_desc_le b c → session_desc_le a c := by
  unfold session_desc_le
  intro h1 h2
  exact decide_eq_true (key_le_trans (of_decide_eq_true h2) (of_decide_eq_true h1))

theorem session_desc_le_total (a b : DebateSession) :
    session_desc_le a b || session_desc_le b a := by
  unfold session_desc_le
  rcases key_le_total (consensus_sort_key b) (consensus_sort_key a) with h | h
  · rw [decide_eq_true h]
    rfl
  · rw [decide_eq_true h]
    simp

/-- Claim C6: the Exploration Driver returns exactly its per-variant
sessions, sorted descending by the key `(unanimous_validity,
average_novelty)` (booleans compared as False < True before novelty
breaks ties), and the sort is stable: two sessions with equal keys keep
their generation order. -/
theorem explore_problem_space_ranking (st : Settings) (variants : List VariantInput) :
    List.Perm (explore_problem_space st variants) (variants.map (explore_session st)) ∧
    List.Pairwise
      (fun a b => key_le (consensus_sort_key b) (consensus_sort_key a))
      (explore_problem_space st variants) ∧
    ∀ a b : DebateSession,
      List.Sublist [a, b] (variants.map (explore_session st)) →
      consensus_sort_key a = consensus_sort_key b →
      List.Sublist [a, b] (explore_problem_space st variants) := by
  unfold explore_problem_space explore_rank
  refine ⟨List.mergeSort_perm _ _, ?_, ?_⟩
  · have hs := List.sorted_mergeSort
      session_desc_le_trans
      (fun a b => session_desc_le_total a b)
      (variants.map (explore_session st))
    exact hs.imp fun h => of_decide_eq_true h
  · intro a b hsub hk
    apply List.pair_sublist_mergeSort session_desc_le_trans
      (fun a b => session_desc_le_total a b) _ hsub
    exact decide_eq_true (hk ▸ key_le_refl _)

def sample_variant_1 : VariantInput :=
  { session_id := "s1", position := sample_position_no_preds, local_critiques := [] }

def sample_variant_2 : VariantInput :=
  { session_id := "s2", position := sample_position_no_preds, local_critiques := [] }

/-- Claim C6 witness: two concrete variants whose sessions carry equal
sort keys stay in generation order in the ranked output. -/
theorem explore_problem_space_ranking_witness :
    consensus_sort_key (explore_session settings sample_variant_1) =
      consensus_sort_key (explore_session settings sample_variant_2) ∧
    List.Sublist
      [explore_session settings sample_variant_1, explore_session settings sample_variant_2]
      (explore_problem_space settings [sample_variant_1, sample_variant_2]) := by
  have hk : consensus_sort_key (explore_session settings sample_variant_1) =
      consensus_sort_key (explore_session settings sample_variant_2) := rfl
  refine ⟨hk, ?_⟩
  exact (explore_problem_space_ranking settings [sample_variant_1, sample_variant_2]).2.2
    _ _ (List.Sublist.refl _) hk

end Metaluminous
